import Mathlib

set_option maxHeartbeats 1000000

/- Shallow embedding of the MOO2 saved-game editor (src/moo2.py).

The file buffer, a Python array.array of unsigned bytes, is modelled as a
total function from byte offsets to stored values; the Game instance state
is the buffer together with the derived maxplanet counter. Python
exceptions are modelled with Except Err: a method that raises returns the
state it had reached at the point of the raise together with the error, so
partially-applied mutations are observable. -/

/-- Single-byte store, data[o] = v. -/
def upd (d : Nat → Nat) (o v : Nat) : Nat → Nat := fun i => if i = o then v else d i

@[simp] theorem upd_same (d : Nat → Nat) (o v : Nat) : upd d o v o = v := if_pos rfl

theorem upd_ne (d : Nat → Nat) (o v i : Nat) (h : i ≠ o) : upd d o v i = d i := if_neg h

/-- Game.short_at_offset: little-endian 16-bit read, data[o] + (data[o+1] << 8). -/
def short_at_offset (d : Nat → Nat) (o : Nat) : Nat := d o + d (o + 1) * 256

/-- Game.set_short_at_offset: data[o+1] = value >> 8, then data[o] = value & 0xff. -/
def set_short_at_offset (d : Nat → Nat) (o value : Nat) : Nat → Nat :=
  upd (upd d (o + 1) (value / 256)) o (value % 256)

/-- Simultaneous Python tuple assignment
d[a], d[a+1], d[b], d[b+1] = d[b], d[b+1], d[a], d[a+1]
used in Planet._setposition: the right-hand sides are read first, then the
four stores happen left to right. -/
def swap4 (d : Nat → Nat) (a b : Nat) : Nat → Nat :=
  upd (upd (upd (upd d a (d b)) (a + 1) (d (b + 1))) b (d a)) (b + 1) (d (a + 1))

/-- Slice assignment data[o : o + l.length] = l. -/
def writeBytes (d : Nat → Nat) (o : Nat) (l : List Nat) : Nat → Nat :=
  fun i => if o ≤ i ∧ i < o + l.length then l.getD (i - o) 0 else d i

/-- Offsets into the saved game file, and per-class layout constants. -/
def Star.block_offset : Nat := 0x17ad3

def Star.max_stars : Nat := 72

def Star.block_size : Nat := 0x71

def Star.planet_offset : Nat := 0x4a

/-- Star.__init__: self.offset = Star.block_offset + number*Star.block_size. -/
def Star.offset (number : Nat) : Nat := Star.block_offset + number * Star.block_size

def Planet.block_offset : Nat := 0x162e9

def Planet.max_planets : Nat := 360

def Planet.block_size : Nat := 0x11

/-- Planet.__init__: self.offset = Planet.block_offset + number*Planet.block_size. -/
def Planet.offset (number : Nat) : Nat := Planet.block_offset + number * Planet.block_size

def Planet.terraform2desc : List String :=
  ["toxic", "radiated", "barren", "desert", "tundra", "ocean", "swamp", "arid", "terran", "gaia"]

/-- Mapping of planet terraform code to the typical food. -/
def Planet.terraform2food : List Nat := [0, 0, 0, 1, 1, 2, 2, 1, 2, 3]

def Planet.size2desc : List String := ["tiny", "small", "medium", "large", "huge"]

/-- Mapping of planet size code to the typical byte in sub-offset 0xd. -/
def Planet.size2blockd : List Nat := [2, 4, 5, 7, 10]

/-- State of a Game instance: the byte buffer plus the maxplanet counter. -/
structure GameState where
  data : Nat → Nat
  maxplanet : Nat

/-- Python exceptions raised by the module. -/
inductive Err where
  | valueError
  | indexError
  deriving DecidableEq

/-- True when an Except value carries an error. -/
def isError {α : Type} : Except Err α → Bool
  | .error _ => true
  | .ok _ => false

/-- Byte address of the 2-byte slot q inside the planet table of star s:
self.offset + Star.planet_offset + 2*pos. -/
def starSlotAddr (s q : Nat) : Nat := Star.offset s + Star.planet_offset + 2 * q

/-- The 16-bit planet index stored in slot q of the planet table of star s. -/
def slotVal (d : Nat → Nat) (s q : Nat) : Nat := short_at_offset d (starSlotAddr s q)

/-- Star.planet_at: raises IndexError unless 0 <= pos <= 4, returns None when
the slot holds 0xffff, and otherwise builds Planet(game, planet_num), whose
constructor raises ValueError unless planet_num < Planet.max_planets. -/
def Star.planet_at (d : Nat → Nat) (s pos : Nat) : Except Err (Option Nat) :=
  if pos ≤ 4 then
    if slotVal d s pos = 0xffff then .ok none
    else if slotVal d s pos < Planet.max_planets then .ok (some (slotVal d s pos))
    else .error .valueError
  else .error .indexError

/-- Stands for the Python standard-library call random.Random(seed).randrange(3)
made by Star.make_planet: a deterministic draw of one value in {0, 1, 2} from
the integer seed. The Mersenne-Twister stream behind it is library code
outside this repository; the claims depend only on the draw being a fixed
total function of the seed with values below 3, which holds of this model. -/
def randrange3 (seed : Nat) : Nat := seed % 3

/-- The 17-byte default record written by Star.make_planet: starts as zeros,
then bytes 0-1 = 0xff (no colony), byte 2 = star number, byte 3 = position,
byte 4 = body type, byte 5 = 3 (large), byte 6 = 1 (medium gravity),
byte 8 = 2 (barren), byte 9 = random.Random(pos + btype*5 + number*15)
.randrange(3), byte 0xa = 2 (abundant), byte 0xd = size2blockd[newdata[5]]. -/
def Star.newPlanetData (s pos btype : Nat) : List Nat :=
  [0xff, 0xff, s, pos, btype, 3, 1, 0, 2,
   randrange3 (pos + btype * 5 + s * 15), 2, 0, 0,
   Planet.size2blockd.getD 3 0, 0, 0, 0]

/-- Star.make_planet: raises if planet_at raises or finds a planet at pos,
raises unless 1 <= btype <= 3, then increments game.maxplanet, constructs
Planet(game, maxplanet) (whose constructor raises ValueError when the new
index reaches Planet.max_planets, after maxplanet was already incremented),
writes the default record into the planet block, and stores the new index in
the star slot. Returns the new planet number on success. -/
def Star.make_planet (g : GameState) (s pos btype : Nat) : GameState × Except Err Nat :=
  match Star.planet_at g.data s pos with
  | .error e => (g, .error e)
  | .ok (some _) => (g, .error .valueError)
  | .ok none =>
    if 1 ≤ btype ∧ btype ≤ 3 then
      if g.maxplanet + 1 < Planet.max_planets then
        (⟨set_short_at_offset
            (writeBytes g.data (Planet.offset (g.maxplanet + 1)) (Star.newPlanetData s pos btype))
            (starSlotAddr s pos) (g.maxplanet + 1),
          g.maxplanet + 1⟩, .ok (g.maxplanet + 1))
      else (⟨g.data, g.maxplanet + 1⟩, .error .valueError)
    else (g, .error .valueError)

/-- Planet._setposition on the planet with index p. Reads self.star (whose
constructor checks the stored star number against Star.max_stars), calls
planet_at(pos), captures oldpos, returns unchanged when pos equals oldpos,
swaps the two position bytes when another planet occupies pos (otherwise
just writes the new position byte), re-reads self.star, and finally swaps
the two 2-byte star-table entries at pos and oldpos unconditionally. -/
def Planet.setposition (g : GameState) (p pos : Nat) : GameState × Except Err Unit :=
  if g.data (Planet.offset p + 2) < Star.max_stars then
    match Star.planet_at g.data (g.data (Planet.offset p + 2)) pos with
    | .error e => (g, .error e)
    | .ok other =>
      if pos = g.data (Planet.offset p + 3) then (g, .ok ())
      else
        let oldpos := g.data (Planet.offset p + 3)
        let d1 :=
          match other with
          | some o =>
            upd (upd g.data (Planet.offset o + 3) (g.data (Planet.offset p + 3)))
              (Planet.offset p + 3) (g.data (Planet.offset o + 3))
          | none => upd g.data (Planet.offset p + 3) pos
        if d1 (Planet.offset p + 2) < Star.max_stars then
          (⟨swap4 d1 (starSlotAddr (d1 (Planet.offset p + 2)) pos)
              (starSlotAddr (d1 (Planet.offset p + 2)) oldpos), g.maxplanet⟩, .ok ())
        else (⟨d1, g.maxplanet⟩, .error .valueError)
  else (g, .error .valueError)

/-- Planet._settype, the setter function defined at line 362: validates the
code against the keys {1,2,3} of Planet.type2desc and stores it in byte 4. -/
def Planet.settype (g : GameState) (p value : Nat) : GameState × Except Err Unit :=
  if value = 1 ∨ value = 2 ∨ value = 3 then
    (⟨upd g.data (Planet.offset p + 4) value, g.maxplanet⟩, .ok ())
  else (g, .error .valueError)

/-- Setter slot of the `type` property that survives the Planet class body:
line 367 binds `type = property(_gettype, _settype, ...)`, but line 376
re-binds `type = property(_gettype, None, ...)`, so the property exposed on
instances has no setter and attribute assignment raises AttributeError for
every value. -/
def Planet.type_property_fset : Option (GameState → Nat → Nat → GameState × Except Err Unit) :=
  none

/-- Planet._setsize: validates 0 <= value <= 4, captures oldsize, writes the
size byte, then compares byte 0xd against size2blockd[oldsize] (an access
that raises IndexError when the stored old size exceeds 4, with the size
byte already written) and rewrites byte 0xd to size2blockd[value] only on a
match. -/
def Planet.setsize (g : GameState) (p value : Nat) : GameState × Except Err Unit :=
  if value > 4 then (g, .error .valueError)
  else
    let oldsize := g.data (Planet.offset p + 5)
    let d1 := upd g.data (Planet.offset p + 5) value
    if oldsize < Planet.size2blockd.length then
      if d1 (Planet.offset p + 0xd) = Planet.size2blockd.getD oldsize 0 then
        (⟨upd d1 (Planet.offset p + 0xd) (Planet.size2blockd.getD value 0), g.maxplanet⟩, .ok ())
      else (⟨d1, g.maxplanet⟩, .ok ())
    else (⟨d1, g.maxplanet⟩, .error .indexError)

/-- Planet._setfood: validates 0 <= value <= 255 before writing byte 11.
The argument is an Int because _setterraform feeds it food plus a signed
difference. -/
def Planet.setfood (g : GameState) (p : Nat) (value : Int) : GameState × Except Err Unit :=
  if value < 0 ∨ value > 255 then (g, .error .valueError)
  else (⟨upd g.data (Planet.offset p + 11) value.toNat, g.maxplanet⟩, .ok ())

/-- Planet._setterraform: validates 0 <= value < len(terraform2desc), then
executes self.food += terraform2food[value] - terraform2food[self.terraform]
(the second table access raises IndexError when the stored terraform code
exceeds 9; the food setter raises ValueError when the sum leaves 0..255,
in both cases before any byte is written), and finally stores the new
terraform code in byte 8. -/
def Planet.setterraform (g : GameState) (p value : Nat) : GameState × Except Err Unit :=
  if value < Planet.terraform2desc.length then
    if g.data (Planet.offset p + 8) < Planet.terraform2food.length then
      match Planet.setfood g p
        ((g.data (Planet.offset p + 11) : Int)
          + (Planet.terraform2food.getD value 0 : Int)
          - (Planet.terraform2food.getD (g.data (Planet.offset p + 8)) 0 : Int)) with
      | (g1, .ok _) => (⟨upd g1.data (Planet.offset p + 8) value, g1.maxplanet⟩, .ok ())
      | (g1, .error e) => (g1, .error e)
    else (g, .error .indexError)
  else (g, .error .valueError)

/-- Star._getexists: bool(data[self.offset]). -/
def Star.star_exists (d : Nat → Nat) (s : Nat) : Bool := d (Star.offset s) != 0

/-- Game.stars: yields Star(game, i) for i = 0, 1, ... and breaks at the
first star whose existence byte is zero, so only the contiguous prefix of
existing stars is produced. -/
def Game.starsList (d : Nat → Nat) : List Nat :=
  (List.range Star.max_stars).takeWhile (fun s => Star.star_exists d s)

/-- Star.planets: the planet numbers stored in the five slots of star s, in
slot order, skipping 0xffff entries. Each yielded number is passed to the
Planet constructor, which raises unless it is below Planet.max_planets;
planetsValid captures that check. -/
def Star.planetNums (d : Nat → Nat) (s : Nat) : List Nat :=
  ((List.range 5).map (fun q => slotVal d s q)).filter (fun n => n != 0xffff)

/-- True when every planet number yielded by Star.planets for star s passes
the Planet constructor bound check. -/
def Star.planetsValid (d : Nat → Nat) (s : Nat) : Bool :=
  (Star.planetNums d s).all (fun n => n < Planet.max_planets)

/-- Game.__init__ line 17: maxplanet = max(p.number for s in stars() for p
in s.planets()). Raises ValueError when a scanned slot holds an index at or
above Planet.max_planets (Planet constructor) or when the scan yields no
planet at all (Python max on an empty sequence). -/
def Game.init_maxplanet (d : Nat → Nat) : Except Err Nat :=
  if (Game.starsList d).all (fun s => Star.planetsValid d s) then
    match ((Game.starsList d).map (fun s => Star.planetNums d s)).flatten with
    | [] => .error .valueError
    | n :: l => .ok (l.foldl max n)
  else .error .valueError

/- Address arithmetic: the planet block ends below the star block, records
of distinct planets are disjoint, and slot addresses of distinct star/slot
pairs are disjoint. -/

theorem planet_addr_lt_star_block (p i : Nat) (hp : p < Planet.max_planets)
    (hi : i < Planet.block_size) : Planet.offset p + i < Star.block_offset := by
  unfold Planet.offset Planet.block_offset Planet.max_planets Planet.block_size
    Star.block_offset at *
  omega

theorem planet_block_below (p : Nat) (hp : p < Planet.max_planets) :
    Planet.offset p + Planet.block_size ≤ Star.block_offset := by
  unfold Planet.offset Planet.block_offset Planet.max_planets Planet.block_size
    Star.block_offset at *
  omega

theorem starSlotAddr_ge (s q : Nat) : Star.block_offset ≤ starSlotAddr s q := by
  unfold starSlotAddr Star.offset Star.planet_offset
  omega

theorem planet_off_inj (p p' i i' : Nat) (hi : i < Planet.block_size)
    (hi' : i' < Planet.block_size) (h : Planet.offset p + i = Planet.offset p' + i') :
    p = p' ∧ i = i' := by
  unfold Planet.offset Planet.block_offset Planet.block_size at *
  omega

theorem planet_off_ne (p p' i i' : Nat) (hi : i < Planet.block_size)
    (hi' : i' < Planet.block_size) (hne : p ≠ p' ∨ i ≠ i') :
    Planet.offset p + i ≠ Planet.offset p' + i' := by
  unfold Planet.offset Planet.block_offset Planet.block_size at *
  omega

theorem starSlotAddr_ne (s q s' q' : Nat) (hq : q < 5) (hq' : q' < 5)
    (hne : ¬(s' = s ∧ q' = q)) :
    starSlotAddr s' q' ≠ starSlotAddr s q ∧
    starSlotAddr s' q' ≠ starSlotAddr s q + 1 ∧
    starSlotAddr s' q' + 1 ≠ starSlotAddr s q := by
  unfold starSlotAddr Star.offset Star.block_offset Star.block_size Star.planet_offset
  omega

theorem starSlotAddr_sep (s pos q0 : Nat) (hne : pos ≠ q0) :
    starSlotAddr s pos ≠ starSlotAddr s q0 ∧ starSlotAddr s pos ≠ starSlotAddr s q0 + 1 ∧
    starSlotAddr s pos + 1 ≠ starSlotAddr s q0 := by
  unfold starSlotAddr Star.offset Star.block_offset Star.block_size Star.planet_offset
  omega

/- Read lemmas for the buffer primitives. -/

theorem short_upd_ne (d : Nat → Nat) (j v o : Nat) (h1 : o ≠ j) (h2 : o + 1 ≠ j) :
    short_at_offset (upd d j v) o = short_at_offset d o := by
  unfold short_at_offset upd
  rw [if_neg h1, if_neg h2]

theorem slotVal_upd_low (d : Nat → Nat) (j v s q : Nat) (h : j < Star.block_offset) :
    slotVal (upd d j v) s q = slotVal d s q := by
  have h1 := starSlotAddr_ge s q
  exact short_upd_ne d j v _ (by omega) (by omega)

theorem writeBytes_getD (d : Nat → Nat) (o : Nat) (l : List Nat) (i : Nat)
    (h1 : o ≤ i) (h2 : i < o + l.length) :
    writeBytes d o l i = l.getD (i - o) 0 := by
  unfold writeBytes
  rw [if_pos ⟨h1, h2⟩]

theorem writeBytes_ne (d : Nat → Nat) (o : Nat) (l : List Nat) (i : Nat)
    (h : i < o ∨ o + l.length ≤ i) :
    writeBytes d o l i = d i := by
  unfold writeBytes
  rw [if_neg (by omega)]

theorem slotVal_writeBytes_low (d : Nat → Nat) (o : Nat) (l : List Nat) (s q : Nat)
    (h : o + l.length ≤ Star.block_offset) :
    slotVal (writeBytes d o l) s q = slotVal d s q := by
  have h1 := starSlotAddr_ge s q
  unfold slotVal short_at_offset
  rw [writeBytes_ne d o l _ (by omega), writeBytes_ne d o l _ (by omega)]

theorem set_short_lo (d : Nat → Nat) (o v : Nat) : set_short_at_offset d o v o = v % 256 := by
  unfold set_short_at_offset upd
  rw [if_pos rfl]

theorem set_short_hi (d : Nat → Nat) (o v : Nat) :
    set_short_at_offset d o v (o + 1) = v / 256 := by
  unfold set_short_at_offset upd
  rw [if_neg (by omega), if_pos rfl]

theorem set_short_ne (d : Nat → Nat) (o v i : Nat) (h1 : i ≠ o) (h2 : i ≠ o + 1) :
    set_short_at_offset d o v i = d i := by
  unfold set_short_at_offset upd
  rw [if_neg h1, if_neg h2]

theorem short_set_short_val (d : Nat → Nat) (o v : Nat) :
    short_at_offset (set_short_at_offset d o v) o = v := by
  unfold short_at_offset
  rw [set_short_lo, set_short_hi]
  omega

theorem short_set_short_ne (d : Nat → Nat) (o v o' : Nat)
    (h1 : o' ≠ o) (h2 : o' ≠ o + 1) (h3 : o' + 1 ≠ o) :
    short_at_offset (set_short_at_offset d o v) o' = short_at_offset d o' := by
  unfold short_at_offset
  rw [set_short_ne d o v _ h1 h2, set_short_ne d o v _ h3 (by omega)]

theorem slotVal_set_short_same (d : Nat → Nat) (s pos v : Nat) :
    slotVal (set_short_at_offset d (starSlotAddr s pos) v) s pos = v :=
  short_set_short_val d _ v

theorem slotVal_set_short_ne (d : Nat → Nat) (s pos v s' q' : Nat)
    (hpos : pos < 5) (hq' : q' < 5) (hne : ¬(s' = s ∧ q' = pos)) :
    slotVal (set_short_at_offset d (starSlotAddr s pos) v) s' q' = slotVal d s' q' := by
  obtain ⟨h1, h2, h3⟩ := starSlotAddr_ne s pos s' q' hpos hq' hne
  exact short_set_short_ne d _ v _ h1 h2 h3

/- Read lemmas for swap4: the values stored are the ones read from d before
any of the four stores. -/

theorem swap4_at_bp1 (d : Nat → Nat) (a b : Nat) : swap4 d a b (b + 1) = d (a + 1) := by
  unfold swap4 upd
  rw [if_pos rfl]

theorem swap4_at_b (d : Nat → Nat) (a b : Nat) : swap4 d a b b = d a := by
  unfold swap4 upd
  rw [if_neg (by omega), if_pos rfl]

theorem swap4_at_ap1 (d : Nat → Nat) (a b : Nat) (h1 : a + 1 ≠ b + 1) (h2 : a + 1 ≠ b) :
    swap4 d a b (a + 1) = d (b + 1) := by
  unfold swap4 upd
  rw [if_neg h1, if_neg h2, if_pos rfl]

theorem swap4_at_a (d : Nat → Nat) (a b : Nat) (h1 : a ≠ b + 1) (h2 : a ≠ b) :
    swap4 d a b a = d b := by
  unfold swap4 upd
  rw [if_neg h1, if_neg h2, if_neg (by omega), if_pos rfl]

theorem swap4_ne (d : Nat → Nat) (a b i : Nat)
    (h1 : i ≠ b + 1) (h2 : i ≠ b) (h3 : i ≠ a + 1) (h4 : i ≠ a) :
    swap4 d a b i = d i := by
  unfold swap4 upd
  rw [if_neg h1, if_neg h2, if_neg h3, if_neg h4]

theorem slotVal_swap4_fst (d : Nat → Nat) (s pos q0 : Nat) (hne : pos ≠ q0) :
    slotVal (swap4 d (starSlotAddr s pos) (starSlotAddr s q0)) s pos = slotVal d s q0 := by
  obtain ⟨h1, h2, h3⟩ := starSlotAddr_sep s pos q0 hne
  unfold slotVal short_at_offset
  rw [swap4_at_a _ _ _ h2 h1, swap4_at_ap1 _ _ _ (by omega) h3]

theorem slotVal_swap4_snd (d : Nat → Nat) (s pos q0 : Nat) :
    slotVal (swap4 d (starSlotAddr s pos) (starSlotAddr s q0)) s q0 = slotVal d s pos := by
  unfold slotVal short_at_offset
  rw [swap4_at_b, swap4_at_bp1]

theorem slotVal_swap4_other (d : Nat → Nat) (s pos q0 s' q' : Nat)
    (hpos : pos < 5) (hq0 : q0 < 5) (hq' : q' < 5)
    (hne1 : ¬(s' = s ∧ q' = pos)) (hne2 : ¬(s' = s ∧ q' = q0)) :
    slotVal (swap4 d (starSlotAddr s pos) (starSlotAddr s q0)) s' q' = slotVal d s' q' := by
  obtain ⟨a1, a2, a3⟩ := starSlotAddr_ne s pos s' q' hpos hq' hne1
  obtain ⟨b1, b2, b3⟩ := starSlotAddr_ne s q0 s' q' hq0 hq' hne2
  unfold slotVal short_at_offset
  rw [swap4_ne _ _ _ _ b2 b1 a2 a1, swap4_ne _ _ _ _ (by omega) b3 (by omega) a3]

theorem swap4_low (d : Nat → Nat) (s pos q0 i : Nat) (h : i < Star.block_offset) :
    swap4 d (starSlotAddr s pos) (starSlotAddr s q0) i = d i := by
  have h1 := starSlotAddr_ge s pos
  have h2 := starSlotAddr_ge s q0
  exact swap4_ne _ _ _ _ (by omega) (by omega) (by omega) (by omega)

/- Characterization and inversion lemmas for Star.planet_at. -/

theorem planet_at_oob (d : Nat → Nat) (s pos : Nat) (h : ¬ pos ≤ 4) :
    Star.planet_at d s pos = .error .indexError := by
  unfold Star.planet_at
  rw [if_neg h]

theorem planet_at_none (d : Nat → Nat) (s pos : Nat) (h4 : pos ≤ 4)
    (h : slotVal d s pos = 0xffff) : Star.planet_at d s pos = .ok none := by
  unfold Star.planet_at
  rw [if_pos h4, if_pos h]

theorem planet_at_some (d : Nat → Nat) (s pos : Nat) (h4 : pos ≤ 4)
    (h : slotVal d s pos ≠ 0xffff) (h360 : slotVal d s pos < Planet.max_planets) :
    Star.planet_at d s pos = .ok (some (slotVal d s pos)) := by
  unfold Star.planet_at
  rw [if_pos h4, if_neg h, if_pos h360]

theorem planet_at_invalid (d : Nat → Nat) (s pos : Nat) (h4 : pos ≤ 4)
    (h : slotVal d s pos ≠ 0xffff) (h360 : ¬ slotVal d s pos < Planet.max_planets) :
    Star.planet_at d s pos = .error .valueError := by
  unfold Star.planet_at
  rw [if_pos h4, if_neg h, if_neg h360]

theorem planet_at_none_inv (d : Nat → Nat) (s pos : Nat)
    (h : Star.planet_at d s pos = .ok none) :
    pos ≤ 4 ∧ slotVal d s pos = 0xffff := by
  unfold Star.planet_at at h
  split_ifs at h with h1 h2 h3
  · exact ⟨h1, h2⟩
  all_goals simp at h

theorem planet_at_some_inv (d : Nat → Nat) (s pos o : Nat)
    (h : Star.planet_at d s pos = .ok (some o)) :
    pos ≤ 4 ∧ slotVal d s pos = o ∧ o ≠ 0xffff ∧ o < Planet.max_planets := by
  unfold Star.planet_at at h
  split_ifs at h with h1 h2 h3
  all_goals first
  | (simp only [Except.ok.injEq, Option.some.injEq] at h
     exact ⟨h1, h, h ▸ h2, h ▸ h3⟩)
  | simp at h

/- The consistency invariant and the claimed slot/position agreement. -/

/-- Consistency of a game state, formalising the spec's "consistent buffer":
every non-sentinel entry of a star slot table indexes a planet below
Planet.max_planets and at most maxplanet, whose record stores back the star
number and the slot position, and no two slots reference the same planet. -/
def Consistent (g : GameState) : Prop :=
  (∀ s q, s < Star.max_stars → q < 5 → slotVal g.data s q ≠ 0xffff →
    slotVal g.data s q < Planet.max_planets ∧ slotVal g.data s q ≤ g.maxplanet ∧
    g.data (Planet.offset (slotVal g.data s q) + 2) = s ∧
    g.data (Planet.offset (slotVal g.data s q) + 3) = q) ∧
  (∀ s q s' q', s < Star.max_stars → q < 5 → s' < Star.max_stars → q' < 5 →
    slotVal g.data s q ≠ 0xffff → slotVal g.data s q = slotVal g.data s' q' →
    s = s' ∧ q = q')

/-- A planet exists when some slot of a valid star references it. -/
def PlanetExists (g : GameState) (p : Nat) : Prop :=
  p ≠ 0xffff ∧ ∃ s q, s < Star.max_stars ∧ q < 5 ∧ slotVal g.data s q = p

/-- The property claimed of every existing planet P owned by star S: the
slot table of S holds the index of P exactly at the position stored in the
record of P, and at no other position. -/
def SlotPositionAgree (g : GameState) : Prop :=
  ∀ p, PlanetExists g p →
    slotVal g.data (g.data (Planet.offset p + 2)) (g.data (Planet.offset p + 3)) = p ∧
    ∀ q, q < 5 → q ≠ g.data (Planet.offset p + 3) →
      slotVal g.data (g.data (Planet.offset p + 2)) q ≠ p

/-- One API mutation: a position assignment on an existing planet, or
make_planet on a valid star view. -/
inductive Step : GameState → GameState → Prop where
  | setpos (g : GameState) (p pos : Nat) (h : PlanetExists g p) :
      Step g (Planet.setposition g p pos).1
  | mkplanet (g : GameState) (s pos btype : Nat) (h : s < Star.max_stars) :
      Step g (Star.make_planet g s pos btype).1

/-- Transfer of consistency through a transposition of the two slot entries
of star s0 at positions pos and q0, with the position bytes of the two
referenced planet records updated to match and everything else unchanged. -/
theorem consistent_swap_general (g : GameState) (s0 pos q0 : Nat) (F : Nat → Nat)
    (hc : Consistent g) (hs0 : s0 < Star.max_stars) (hpos : pos < 5) (hq0 : q0 < 5)
    (hne : pos ≠ q0)
    (Hfst : slotVal F s0 pos = slotVal g.data s0 q0)
    (Hsnd : slotVal F s0 q0 = slotVal g.data s0 pos)
    (Hoth : ∀ s' q', q' < 5 → ¬(s' = s0 ∧ q' = pos) → ¬(s' = s0 ∧ q' = q0) →
      slotVal F s' q' = slotVal g.data s' q')
    (Hstar : ∀ w, w < Planet.max_planets →
      F (Planet.offset w + 2) = g.data (Planet.offset w + 2))
    (Hpos3 : ∀ w, w < Planet.max_planets → w ≠ slotVal g.data s0 pos →
      w ≠ slotVal g.data s0 q0 → F (Planet.offset w + 3) = g.data (Planet.offset w + 3))
    (Hmv1 : slotVal g.data s0 q0 ≠ 0xffff →
      F (Planet.offset (slotVal g.data s0 q0) + 3) = pos)
    (Hmv2 : slotVal g.data s0 pos ≠ 0xffff →
      F (Planet.offset (slotVal g.data s0 pos) + 3) = q0) :
    Consistent ⟨F, g.maxplanet⟩ := by
  obtain ⟨ha, hb⟩ := hc
  have hdata : (GameState.mk F g.maxplanet).data = F := rfl
  have hmaxp : (GameState.mk F g.maxplanet).maxplanet = g.maxplanet := rfl
  unfold Consistent
  rw [hdata, hmaxp]
  constructor
  · intro s' q' hs' hq' hne'
    by_cases c1 : s' = s0 ∧ q' = pos
    · rw [c1.1, c1.2] at hne' ⊢
      rw [Hfst] at hne' ⊢
      obtain ⟨x1, x2, x3, x4⟩ := ha s0 q0 hs0 hq0 hne'
      exact ⟨x1, x2, by rw [Hstar _ x1]; exact x3, Hmv1 hne'⟩
    by_cases c2 : s' = s0 ∧ q' = q0
    · rw [c2.1, c2.2] at hne' ⊢
      rw [Hsnd] at hne' ⊢
      obtain ⟨x1, x2, x3, x4⟩ := ha s0 pos hs0 hpos hne'
      exact ⟨x1, x2, by rw [Hstar _ x1]; exact x3, Hmv2 hne'⟩
    rw [Hoth s' q' hq' c1 c2] at hne' ⊢
    obtain ⟨x1, x2, x3, x4⟩ := ha s' q' hs' hq' hne'
    refine ⟨x1, x2, by rw [Hstar _ x1]; exact x3, ?_⟩
    have w1 : slotVal g.data s' q' ≠ slotVal g.data s0 pos := by
      intro hw
      exact c1 (hb s' q' s0 pos hs' hq' hs0 hpos hne' hw)
    have w2 : slotVal g.data s' q' ≠ slotVal g.data s0 q0 := by
      intro hw
      exact c2 (hb s' q' s0 q0 hs' hq' hs0 hq0 hne' hw)
    rw [Hpos3 _ x1 w1 w2]
    exact x4
  · intro s1 q1 s2 q2 b1 b2 b3 b4 hne12 heq12
    by_cases c1a : s1 = s0 ∧ q1 = pos
    · rw [c1a.1, c1a.2, Hfst] at hne12
      rw [c1a.1, c1a.2, Hfst] at heq12
      by_cases c2a : s2 = s0 ∧ q2 = pos
      · exact ⟨c1a.1.trans c2a.1.symm, c1a.2.trans c2a.2.symm⟩
      by_cases c2b : s2 = s0 ∧ q2 = q0
      · rw [c2b.1, c2b.2, Hsnd] at heq12
        obtain ⟨-, h2⟩ := hb s0 q0 s0 pos hs0 hq0 hs0 hpos hne12 heq12
        exact absurd h2.symm hne
      · rw [Hoth s2 q2 b4 c2a c2b] at heq12
        obtain ⟨hx, hy⟩ := hb s0 q0 s2 q2 hs0 hq0 b3 b4 hne12 heq12
        exact absurd ⟨hx.symm, hy.symm⟩ c2b
    by_cases c1b : s1 = s0 ∧ q1 = q0
    · rw [c1b.1, c1b.2, Hsnd] at hne12
      rw [c1b.1, c1b.2, Hsnd] at heq12
      by_cases c2a : s2 = s0 ∧ q2 = pos
      · rw [c2a.1, c2a.2, Hfst] at heq12
        obtain ⟨-, h2⟩ := hb s0 pos s0 q0 hs0 hpos hs0 hq0 hne12 heq12
        exact absurd h2 hne
      by_cases c2b : s2 = s0 ∧ q2 = q0
      · exact ⟨c1b.1.trans c2b.1.symm, c1b.2.trans c2b.2.symm⟩
      · rw [Hoth s2 q2 b4 c2a c2b] at heq12
        obtain ⟨hx, hy⟩ := hb s0 pos s2 q2 hs0 hpos b3 b4 hne12 heq12
        exact absurd ⟨hx.symm, hy.symm⟩ c2a
    rw [Hoth s1 q1 b2 c1a c1b] at hne12 heq12
    by_cases c2a : s2 = s0 ∧ q2 = pos
    · rw [c2a.1, c2a.2, Hfst] at heq12
      obtain ⟨hx, hy⟩ := hb s1 q1 s0 q0 b1 b2 hs0 hq0 hne12 heq12
      exact absurd ⟨hx, hy⟩ c1b
    by_cases c2b : s2 = s0 ∧ q2 = q0
    · rw [c2b.1, c2b.2, Hsnd] at heq12
      obtain ⟨hx, hy⟩ := hb s1 q1 s0 pos b1 b2 hs0 hpos hne12 heq12
      exact absurd ⟨hx, hy⟩ c1a
    · rw [Hoth s2 q2 b4 c2a c2b] at heq12
      exact hb s1 q1 s2 q2 b1 b2 b3 b4 hne12 heq12

theorem newPlanetData_length (s pos btype : Nat) :
    (Star.newPlanetData s pos btype).length = Planet.block_size := rfl

/-- Reads of a planet record other than the freshly written one pass through
the 17-byte slice write unchanged. -/
theorem record_read_untouched (d : Nat → Nat) (l : List Nat)
    (hl : l.length = Planet.block_size) (mp w i : Nat) (hw : w ≠ mp)
    (hi : i < Planet.block_size) :
    writeBytes d (Planet.offset mp) l (Planet.offset w + i) = d (Planet.offset w + i) := by
  apply writeBytes_ne
  rw [hl]
  unfold Planet.offset Planet.block_offset Planet.block_size at *
  omega

theorem consistent_make_planet (g : GameState) (s pos btype : Nat)
    (hc : Consistent g) : Consistent (Star.make_planet g s pos btype).1 := by
  obtain ⟨ha, hb⟩ := hc
  unfold Star.make_planet
  split
  next e heq => exact ⟨ha, hb⟩
  next x heq => exact ⟨ha, hb⟩
  next heq =>
  obtain ⟨h4, hff⟩ := planet_at_none_inv g.data s pos heq
  by_cases hbt : 1 ≤ btype ∧ btype ≤ 3
  case neg =>
    rw [if_neg hbt]
    exact ⟨ha, hb⟩
  rw [if_pos hbt]
  by_cases hmp : g.maxplanet + 1 < Planet.max_planets
  case neg =>
    rw [if_neg hmp]
    have key : Consistent ⟨g.data, g.maxplanet + 1⟩ := by
      have hdata : (GameState.mk g.data (g.maxplanet + 1)).data = g.data := rfl
      have hmaxp : (GameState.mk g.data (g.maxplanet + 1)).maxplanet = g.maxplanet + 1 := rfl
      unfold Consistent
      rw [hdata, hmaxp]
      refine ⟨?_, hb⟩
      intro s' q' hs' hq' hne'
      obtain ⟨x1, x2, x3, x4⟩ := ha s' q' hs' hq' hne'
      exact ⟨x1, by omega, x3, x4⟩
    exact key
  rw [if_pos hmp]
  have key : Consistent ⟨set_short_at_offset
      (writeBytes g.data (Planet.offset (g.maxplanet + 1)) (Star.newPlanetData s pos btype))
      (starSlotAddr s pos) (g.maxplanet + 1), g.maxplanet + 1⟩ := by
    have hmp360 : g.maxplanet + 1 < Planet.max_planets := hmp
    have hbb : Planet.offset (g.maxplanet + 1) + (Star.newPlanetData s pos btype).length ≤
        Star.block_offset := by
      rw [newPlanetData_length]
      exact planet_block_below _ hmp360
    have hlow2 : Planet.offset (g.maxplanet + 1) + 2 < Star.block_offset :=
      planet_addr_lt_star_block _ 2 hmp360 (by norm_num [Planet.block_size])
    have hlow3 : Planet.offset (g.maxplanet + 1) + 3 < Star.block_offset :=
      planet_addr_lt_star_block _ 3 hmp360 (by norm_num [Planet.block_size])
    have hge := starSlotAddr_ge s pos
    have hFslot : slotVal (set_short_at_offset
        (writeBytes g.data (Planet.offset (g.maxplanet + 1)) (Star.newPlanetData s pos btype))
        (starSlotAddr s pos) (g.maxplanet + 1)) s pos = g.maxplanet + 1 :=
      slotVal_set_short_same _ s pos _
    have hFrec2 : (set_short_at_offset
        (writeBytes g.data (Planet.offset (g.maxplanet + 1)) (Star.newPlanetData s pos btype))
        (starSlotAddr s pos) (g.maxplanet + 1)) (Planet.offset (g.maxplanet + 1) + 2) = s := by
      rw [set_short_ne _ _ _ _ (by omega) (by omega),
        writeBytes_getD _ _ _ _ (by omega) (by rw [newPlanetData_length]; norm_num [Planet.block_size]),
        Nat.add_sub_cancel_left]
      rfl
    have hFrec3 : (set_short_at_offset
        (writeBytes g.data (Planet.offset (g.maxplanet + 1)) (Star.newPlanetData s pos btype))
        (starSlotAddr s pos) (g.maxplanet + 1)) (Planet.offset (g.maxplanet + 1) + 3) = pos := by
      rw [set_short_ne _ _ _ _ (by omega) (by omega),
        writeBytes_getD _ _ _ _ (by omega) (by rw [newPlanetData_length]; norm_num [Planet.block_size]),
        Nat.add_sub_cancel_left]
      rfl
    have hFoth : ∀ s' q', q' < 5 → ¬(s' = s ∧ q' = pos) →
        slotVal (set_short_at_offset
          (writeBytes g.data (Planet.offset (g.maxplanet + 1)) (Star.newPlanetData s pos btype))
          (starSlotAddr s pos) (g.maxplanet + 1)) s' q' = slotVal g.data s' q' := by
      intro s' q' hq' hc1
      rw [slotVal_set_short_ne _ s pos _ s' q' (by omega) hq' hc1,
        slotVal_writeBytes_low _ _ _ _ _ hbb]
    have hFrecW : ∀ w i, w < Planet.max_planets → w ≠ g.maxplanet + 1 → i < Planet.block_size →
        (set_short_at_offset
          (writeBytes g.data (Planet.offset (g.maxplanet + 1)) (Star.newPlanetData s pos btype))
          (starSlotAddr s pos) (g.maxplanet + 1)) (Planet.offset w + i) = g.data (Planet.offset w + i) := by
      intro w i hw hwne hi
      have hlw : Planet.offset w + i < Star.block_offset := planet_addr_lt_star_block _ _ hw hi
      rw [set_short_ne _ _ _ _ (by omega) (by omega),
        record_read_untouched _ _ (newPlanetData_length s pos btype) _ _ _ hwne hi]
    have hdata : (GameState.mk (set_short_at_offset
        (writeBytes g.data (Planet.offset (g.maxplanet + 1)) (Star.newPlanetData s pos btype))
        (starSlotAddr s pos) (g.maxplanet + 1)) (g.maxplanet + 1)).data = set_short_at_offset
        (writeBytes g.data (Planet.offset (g.maxplanet + 1)) (Star.newPlanetData s pos btype))
        (starSlotAddr s pos) (g.maxplanet + 1) := rfl
    have hmaxp : (GameState.mk (set_short_at_offset
        (writeBytes g.data (Planet.offset (g.maxplanet + 1)) (Star.newPlanetData s pos btype))
        (starSlotAddr s pos) (g.maxplanet + 1)) (g.maxplanet + 1)).maxplanet = g.maxplanet + 1 := rfl
    unfold Consistent
    rw [hdata, hmaxp]
    constructor
    · intro s' q' hs' hq' hne'
      by_cases c1 : s' = s ∧ q' = pos
      · rw [c1.1, c1.2] at hne' ⊢
        rw [hFslot] at hne' ⊢
        exact ⟨hmp360, Nat.le_refl _, hFrec2, hFrec3⟩
      · rw [hFoth s' q' hq' c1] at hne' ⊢
        obtain ⟨x1, x2, x3, x4⟩ := ha s' q' hs' hq' hne'
        have hwne : slotVal g.data s' q' ≠ g.maxplanet + 1 := by omega
        refine ⟨x1, by omega, ?_, ?_⟩
        · rw [hFrecW _ 2 x1 hwne (by norm_num [Planet.block_size])]
          exact x3
        · rw [hFrecW _ 3 x1 hwne (by norm_num [Planet.block_size])]
          exact x4
    · intro s1 q1 s2 q2 b1 b2 b3 b4 hne12 heq12
      by_cases c1 : s1 = s ∧ q1 = pos
      · by_cases c2 : s2 = s ∧ q2 = pos
        · exact ⟨c1.1.trans c2.1.symm, c1.2.trans c2.2.symm⟩
        · rw [c1.1, c1.2, hFslot] at heq12
          rw [hFoth s2 q2 b4 c2] at heq12
          have hne2 : slotVal g.data s2 q2 ≠ 0xffff := by
            rw [← heq12]
            unfold Planet.max_planets at hmp360
            omega
          have x2 := (ha s2 q2 b3 b4 hne2).2.1
          omega
      · by_cases c2 : s2 = s ∧ q2 = pos
        · rw [hFoth s1 q1 b2 c1] at hne12 heq12
          rw [c2.1, c2.2, hFslot] at heq12
          have x2 := (ha s1 q1 b1 b2 hne12).2.1
          omega
        · rw [hFoth s1 q1 b2 c1] at hne12 heq12
          rw [hFoth s2 q2 b4 c2] at heq12
          exact hb s1 q1 s2 q2 b1 b2 b3 b4 hne12 heq12
  exact key

theorem consistent_setpos (g : GameState) (p pos : Nat)
    (hc : Consistent g) (hex : PlanetExists g p) :
    Consistent (Planet.setposition g p pos).1 := by
  obtain ⟨hpff, s0, q0, hs0, hq0, hslot⟩ := hex
  obtain ⟨ha, hb⟩ := hc
  have hpf := ha s0 q0 hs0 hq0 (by rw [hslot]; exact hpff)
  rw [hslot] at hpf
  obtain ⟨hp360, hpmax, hpstar, hppos⟩ := hpf
  have hi2 : (2 : Nat) < Planet.block_size := by decide
  have hi3 : (3 : Nat) < Planet.block_size := by decide
  have hlow3 : Planet.offset p + 3 < Star.block_offset :=
    planet_addr_lt_star_block p 3 hp360 hi3
  unfold Planet.setposition
  rw [hpstar, if_pos hs0]
  split
  next e heq => exact ⟨ha, hb⟩
  next other heq =>
  by_cases hpq : pos = g.data (Planet.offset p + 3)
  · rw [if_pos hpq]
    exact ⟨ha, hb⟩
  have hpq2 := hpq
  rw [hppos] at hpq2
  rw [if_neg hpq]
  cases other with
  | none =>
    obtain ⟨h4, hff⟩ := planet_at_none_inv g.data s0 pos heq
    dsimp only
    rw [hppos]
    have hread : (upd g.data (Planet.offset p + 3) pos) (Planet.offset p + 2) = s0 := by
      rw [upd_ne _ _ _ _ (planet_off_ne p p 2 3 hi2 hi3 (Or.inr (by omega)))]
      exact hpstar
    rw [hread, if_pos hs0]
    refine consistent_swap_general g s0 pos q0 _ ⟨ha, hb⟩ hs0 (by omega) hq0 hpq2
      ?_ ?_ ?_ ?_ ?_ ?_ ?_
    · rw [slotVal_swap4_fst _ _ _ _ hpq2, slotVal_upd_low _ _ _ _ _ hlow3]
    · rw [slotVal_swap4_snd, slotVal_upd_low _ _ _ _ _ hlow3]
    · intro s' q' hq' c1 c2
      rw [slotVal_swap4_other _ _ _ _ _ _ (by omega) hq0 hq' c1 c2,
        slotVal_upd_low _ _ _ _ _ hlow3]
    · intro w hw
      rw [swap4_low _ _ _ _ _ (planet_addr_lt_star_block w 2 hw hi2),
        upd_ne _ _ _ _ (planet_off_ne w p 2 3 hi2 hi3 (Or.inr (by omega)))]
    · intro w hw w1 w2
      rw [hslot] at w2
      rw [swap4_low _ _ _ _ _ (planet_addr_lt_star_block w 3 hw hi3),
        upd_ne _ _ _ _ (planet_off_ne w p 3 3 hi3 hi3 (Or.inl w2))]
    · intro hne1
      rw [hslot]
      rw [swap4_low _ _ _ _ _ hlow3]
      exact upd_same _ _ _
    · intro hcon
      exact absurd hff hcon
  | some o =>
    obtain ⟨h4, hoslot, hoff, ho360⟩ := planet_at_some_inv g.data s0 pos o heq
    have hof := ha s0 pos hs0 (by omega) (by rw [hoslot]; exact hoff)
    rw [hoslot] at hof
    obtain ⟨ho360b, homax, hostar, hopos⟩ := hof
    have hop : o ≠ p := by
      intro hcon
      have hx := hb s0 pos s0 q0 hs0 (by omega) hs0 hq0
        (by rw [hoslot]; exact hoff) (by rw [hoslot, hslot, hcon])
      exact hpq2 hx.2
    have hlow3o : Planet.offset o + 3 < Star.block_offset :=
      planet_addr_lt_star_block o 3 ho360 hi3
    dsimp only
    rw [hppos, hopos]
    have hread : (upd (upd g.data (Planet.offset o + 3) q0) (Planet.offset p + 3) pos)
        (Planet.offset p + 2) = s0 := by
      rw [upd_ne _ _ _ _ (planet_off_ne p p 2 3 hi2 hi3 (Or.inr (by omega))),
        upd_ne _ _ _ _ (planet_off_ne p o 2 3 hi2 hi3 (Or.inr (by omega)))]
      exact hpstar
    rw [hread, if_pos hs0]
    refine consistent_swap_general g s0 pos q0 _ ⟨ha, hb⟩ hs0 (by omega) hq0 hpq2
      ?_ ?_ ?_ ?_ ?_ ?_ ?_
    · rw [slotVal_swap4_fst _ _ _ _ hpq2, slotVal_upd_low _ _ _ _ _ hlow3,
        slotVal_upd_low _ _ _ _ _ hlow3o]
    · rw [slotVal_swap4_snd, slotVal_upd_low _ _ _ _ _ hlow3,
        slotVal_upd_low _ _ _ _ _ hlow3o]
    · intro s' q' hq' c1 c2
      rw [slotVal_swap4_other _ _ _ _ _ _ (by omega) hq0 hq' c1 c2,
        slotVal_upd_low _ _ _ _ _ hlow3, slotVal_upd_low _ _ _ _ _ hlow3o]
    · intro w hw
      rw [swap4_low _ _ _ _ _ (planet_addr_lt_star_block w 2 hw hi2),
        upd_ne _ _ _ _ (planet_off_ne w p 2 3 hi2 hi3 (Or.inr (by omega))),
        upd_ne _ _ _ _ (planet_off_ne w o 2 3 hi2 hi3 (Or.inr (by omega)))]
    · intro w hw w1 w2
      rw [hslot] at w2
      rw [hoslot] at w1
      rw [swap4_low _ _ _ _ _ (planet_addr_lt_star_block w 3 hw hi3),
        upd_ne _ _ _ _ (planet_off_ne w p 3 3 hi3 hi3 (Or.inl w2)),
        upd_ne _ _ _ _ (planet_off_ne w o 3 3 hi3 hi3 (Or.inl w1))]
    · intro hne1
      rw [hslot]
      rw [swap4_low _ _ _ _ _ hlow3]
      exact upd_same _ _ _
    · intro hne2
      rw [hoslot]
      rw [swap4_low _ _ _ _ _ hlow3o]
      rw [upd_ne _ _ _ _ (planet_off_ne o p 3 3 hi3 hi3 (Or.inl hop))]
      exact upd_same _ _ _

theorem consistent_step (g g' : GameState) (hc : Consistent g) (hst : Step g g') :
    Consistent g' := by
  cases hst with
  | setpos p pos h => exact consistent_setpos g p pos hc h
  | mkplanet s pos btype h => exact consistent_make_planet g s pos btype hc

theorem consistent_reach (g g' : GameState) (hc : Consistent g)
    (h : Relation.ReflTransGen Step g g') : Consistent g' := by
  induction h with
  | refl => exact hc
  | tail hr hst ih => exact consistent_step _ _ ih hst

theorem consistent_implies_agree (g : GameState) (hc : Consistent g) :
    SlotPositionAgree g := by
  obtain ⟨ha, hb⟩ := hc
  intro p hex
  obtain ⟨hpff, s0, q0, hs0, hq0, hslot⟩ := hex
  have hpf := ha s0 q0 hs0 hq0 (by rw [hslot]; exact hpff)
  rw [hslot] at hpf
  obtain ⟨hp360, hpmax, hpstar, hppos⟩ := hpf
  rw [hpstar, hppos]
  refine ⟨hslot, ?_⟩
  intro q hq hqne hcon
  have hx := hb s0 q0 s0 q hs0 hq0 hs0 hq (by rw [hslot]; exact hpff)
    (by rw [hslot, hcon])
  exact hqne hx.2.symm

/-- C1: position/slot-table consistency invariant. Starting from a consistent
buffer, any sequence of position-setter and make_planet calls preserves
consistency, and in every reachable state each existing planet P owned by
star S satisfies: the slot table of S holds the index of P at the stored
position of P and at no other position. -/
theorem position_slot_consistency (g g' : GameState) (hc : Consistent g)
    (hr : Relation.ReflTransGen Step g g') :
    Consistent g' ∧ SlotPositionAgree g' := by
  have h := consistent_reach g g' hc hr
  exact ⟨h, consistent_implies_agree g' h⟩

/-- All-0xff buffer with maxplanet 0: every star slot reads 0xffff. -/
def gEmpty : GameState := ⟨fun _ => 0xff, 0⟩

theorem gEmpty_slot (s q : Nat) : slotVal gEmpty.data s q = 0xffff := by
  unfold gEmpty slotVal short_at_offset
  norm_num

theorem gEmpty_consistent : Consistent gEmpty :=
  ⟨fun s q _ _ hne => absurd (gEmpty_slot s q) hne,
   fun s q _ _ _ _ _ _ hne _ => absurd (gEmpty_slot s q) hne⟩

/-- Witness for C1: the hypotheses hold of the concrete all-empty buffer and
the one-step sequence that creates a planet at position 0 of star 0. -/
theorem position_slot_consistency_witness :
    Consistent gEmpty ∧
      (Consistent (Star.make_planet gEmpty 0 0 3).1 ∧
        SlotPositionAgree (Star.make_planet gEmpty 0 0 3).1) :=
  ⟨gEmpty_consistent,
    position_slot_consistency gEmpty (Star.make_planet gEmpty 0 0 3).1 gEmpty_consistent
      (Relation.ReflTransGen.single (Step.mkplanet gEmpty 0 0 3 (by decide)))⟩

theorem make_planet_success_inv (g : GameState) (s pos btype n : Nat)
    (h : (Star.make_planet g s pos btype).2 = .ok n) :
    Star.planet_at g.data s pos = .ok none ∧ (1 ≤ btype ∧ btype ≤ 3) ∧
    g.maxplanet + 1 < Planet.max_planets ∧ n = g.maxplanet + 1 := by
  unfold Star.make_planet at h
  split at h
  · simp at h
  · simp at h
  next heq =>
    split_ifs at h with h1 h2
    dsimp only at h
    simp only [Except.ok.injEq] at h
    exact ⟨heq, h1, h2, h.symm⟩

theorem make_planet_success_state (g : GameState) (s pos btype : Nat)
    (hpa : Star.planet_at g.data s pos = .ok none) (hbt : 1 ≤ btype ∧ btype ≤ 3)
    (hmp : g.maxplanet + 1 < Planet.max_planets) :
    (Star.make_planet g s pos btype).1 =
      ⟨set_short_at_offset
        (writeBytes g.data (Planet.offset (g.maxplanet + 1)) (Star.newPlanetData s pos btype))
        (starSlotAddr s pos) (g.maxplanet + 1), g.maxplanet + 1⟩ := by
  unfold Star.make_planet
  split
  next e heq =>
    rw [hpa] at heq
    simp at heq
  next x heq =>
    simp [hpa] at heq
  next heq =>
    rw [if_pos hbt, if_pos hmp]

/-- C2: allocation monotonicity of make_planet. A successful call increases
maxplanet by exactly one, returns that value as the new planet's index, and
immediately afterwards planet_at at the requested position yields that index
with the requested body type stored in the record's type byte. -/
theorem make_planet_allocates (g : GameState) (s pos btype n : Nat)
    (h : (Star.make_planet g s pos btype).2 = .ok n) :
    (Star.make_planet g s pos btype).1.maxplanet = g.maxplanet + 1 ∧
    n = g.maxplanet + 1 ∧
    Star.planet_at (Star.make_planet g s pos btype).1.data s pos = .ok (some n) ∧
    (Star.make_planet g s pos btype).1.data (Planet.offset n + 4) = btype := by
  obtain ⟨hpa, hbt, hmp, hn⟩ := make_planet_success_inv g s pos btype n h
  obtain ⟨h4, hff⟩ := planet_at_none_inv g.data s pos hpa
  have hstate := make_planet_success_state g s pos btype hpa hbt hmp
  have hsv : slotVal (set_short_at_offset
      (writeBytes g.data (Planet.offset (g.maxplanet + 1)) (Star.newPlanetData s pos btype))
      (starSlotAddr s pos) (g.maxplanet + 1)) s pos = g.maxplanet + 1 :=
    slotVal_set_short_same _ s pos _
  have hffval : (0xffff : Nat) = 65535 := rfl
  have hneq : g.maxplanet + 1 ≠ 0xffff := by
    unfold Planet.max_planets at hmp
    omega
  refine ⟨by rw [hstate], hn, ?_, ?_⟩
  · rw [hstate]
    have h2 := planet_at_some (set_short_at_offset
      (writeBytes g.data (Planet.offset (g.maxplanet + 1)) (Star.newPlanetData s pos btype))
      (starSlotAddr s pos) (g.maxplanet + 1)) s pos h4 (by rw [hsv]; exact hneq)
      (by rw [hsv]; exact hmp)
    rw [hsv] at h2
    rw [hn]
    exact h2
  · rw [hstate, hn]
    have hge := starSlotAddr_ge s pos
    have hlow4 : Planet.offset (g.maxplanet + 1) + 4 < Star.block_offset :=
      planet_addr_lt_star_block _ 4 hmp (by decide)
    dsimp only
    rw [set_short_ne _ _ _ _ (by omega) (by omega),
      writeBytes_getD _ _ _ _ (by omega)
        (by rw [newPlanetData_length]; unfold Planet.block_size; omega),
      Nat.add_sub_cancel_left]
    rfl

/-- Witness for C2: make_planet on the all-empty buffer at position 2 of
star 0 with body type 1 succeeds with the new index 1. -/
theorem make_planet_allocates_witness :
    (Star.make_planet gEmpty 0 2 1).2 = .ok 1 ∧
      ((Star.make_planet gEmpty 0 2 1).1.maxplanet = gEmpty.maxplanet + 1 ∧
        1 = gEmpty.maxplanet + 1 ∧
        Star.planet_at (Star.make_planet gEmpty 0 2 1).1.data 0 2 = .ok (some 1) ∧
        (Star.make_planet gEmpty 0 2 1).1.data (Planet.offset 1 + 4) = 1) :=
  ⟨by rfl, make_planet_allocates gEmpty 0 2 1 1 (by rfl)⟩

theorem setposition_swap_state (g : GameState) (a b s p q : Nat)
    (ha360 : a < Planet.max_planets) (hb360 : b < Planet.max_planets) (hab : a ≠ b)
    (hs : s < Star.max_stars) (hq : q ≤ 4) (hpq : p ≠ q)
    (hastar : g.data (Planet.offset a + 2) = s)
    (hapos : g.data (Planet.offset a + 3) = p)
    (hbpos : g.data (Planet.offset b + 3) = q)
    (hslotq : slotVal g.data s q = b) :
    Planet.setposition g a q =
      (⟨swap4 (upd (upd g.data (Planet.offset b + 3) p) (Planet.offset a + 3) q)
          (starSlotAddr s q) (starSlotAddr s p), g.maxplanet⟩, .ok ()) := by
  have hi2 : (2 : Nat) < Planet.block_size := by decide
  have hi3 : (3 : Nat) < Planet.block_size := by decide
  have hbff : b ≠ 0xffff := by
    unfold Planet.max_planets at hb360
    omega
  have hpa : Star.planet_at g.data s q = .ok (some b) := by
    have hx := planet_at_some g.data s q hq (by rw [hslotq]; exact hbff)
      (by rw [hslotq]; exact hb360)
    rw [hslotq] at hx
    exact hx
  unfold Planet.setposition
  rw [hastar, if_pos hs]
  split
  next e heq =>
    rw [hpa] at heq
    simp at heq
  next other heq =>
    rw [hpa] at heq
    simp only [Except.ok.injEq] at heq
    subst heq
    rw [hapos, if_neg (fun hcon => hpq hcon.symm)]
    dsimp only
    rw [hbpos]
    have hread : (upd (upd g.data (Planet.offset b + 3) p) (Planet.offset a + 3) q)
        (Planet.offset a + 2) = s := by
      rw [upd_ne _ _ _ _ (planet_off_ne a a 2 3 hi2 hi3 (Or.inr (by omega))),
        upd_ne _ _ _ _ (planet_off_ne a b 2 3 hi2 hi3 (Or.inr (by omega)))]
      exact hastar
    rw [hread, if_pos hs]

/-- C3: swap symmetry. For two planets a and b at the same star s with
positions p and q, setting the position of a to q stores q in the position
byte of a and p in the position byte of b, and the star slot table ends up
holding a at slot q and b at slot p. -/
theorem setposition_swap (g : GameState) (a b s p q : Nat)
    (ha360 : a < Planet.max_planets) (hb360 : b < Planet.max_planets) (hab : a ≠ b)
    (hs : s < Star.max_stars) (hp : p ≤ 4) (hq : q ≤ 4)
    (hastar : g.data (Planet.offset a + 2) = s)
    (hapos : g.data (Planet.offset a + 3) = p)
    (hbpos : g.data (Planet.offset b + 3) = q)
    (hslotp : slotVal g.data s p = a)
    (hslotq : slotVal g.data s q = b) :
    (Planet.setposition g a q).1.data (Planet.offset a + 3) = q ∧
    (Planet.setposition g a q).1.data (Planet.offset b + 3) = p ∧
    slotVal (Planet.setposition g a q).1.data s q = a ∧
    slotVal (Planet.setposition g a q).1.data s p = b ∧
    (Planet.setposition g a q).2 = .ok () := by
  have hi3 : (3 : Nat) < Planet.block_size := by decide
  have hpq : p ≠ q := by
    intro hcon
    rw [hcon, hslotq] at hslotp
    exact hab hslotp.symm
  have hstate := setposition_swap_state g a b s p q ha360 hb360 hab hs hq hpq
    hastar hapos hbpos hslotq
  have hlowa : Planet.offset a + 3 < Star.block_offset :=
    planet_addr_lt_star_block a 3 ha360 hi3
  have hlowb : Planet.offset b + 3 < Star.block_offset :=
    planet_addr_lt_star_block b 3 hb360 hi3
  rw [hstate]
  dsimp only
  refine ⟨?_, ?_, ?_, ?_, rfl⟩
  · rw [swap4_low _ _ _ _ _ hlowa]
    exact upd_same _ _ _
  · rw [swap4_low _ _ _ _ _ hlowb,
      upd_ne _ _ _ _ (planet_off_ne b a 3 3 hi3 hi3 (Or.inl (Ne.symm hab)))]
    exact upd_same _ _ _
  · rw [slotVal_swap4_fst _ _ _ _ (Ne.symm hpq), slotVal_upd_low _ _ _ _ _ hlowa,
      slotVal_upd_low _ _ _ _ _ hlowb]
    exact hslotp
  · rw [slotVal_swap4_snd, slotVal_upd_low _ _ _ _ _ hlowa,
      slotVal_upd_low _ _ _ _ _ hlowb]
    exact hslotq

/-- Concrete two-planet buffer: star 0 holds planet 5 at slot 0 and planet 9
at slot 1; the records of planets 5 and 9 store star 0 and positions 0, 1. -/
def gSwap : GameState :=
  ⟨fun i =>
    if i = 0x17b1d then 5 else if i = 0x17b1e then 0
    else if i = 0x17b1f then 9 else if i = 0x17b20 then 0
    else if i = 0x16340 then 0 else if i = 0x16341 then 0
    else if i = 0x16384 then 0 else if i = 0x16385 then 1
    else 0xff, 9⟩

/-- Witness for C3: swapping planet 5 (position 0) to position 1 in the
concrete two-planet buffer exchanges positions with planet 9. -/
theorem setposition_swap_witness :
    (5 : Nat) < Planet.max_planets ∧ (9 : Nat) < Planet.max_planets ∧ (5 : Nat) ≠ 9 ∧
    (0 : Nat) < Star.max_stars ∧ (0 : Nat) ≤ 4 ∧ (1 : Nat) ≤ 4 ∧
    gSwap.data (Planet.offset 5 + 2) = 0 ∧ gSwap.data (Planet.offset 5 + 3) = 0 ∧
    gSwap.data (Planet.offset 9 + 3) = 1 ∧
    slotVal gSwap.data 0 0 = 5 ∧ slotVal gSwap.data 0 1 = 9 ∧
    ((Planet.setposition gSwap 5 1).1.data (Planet.offset 5 + 3) = 1 ∧
      (Planet.setposition gSwap 5 1).1.data (Planet.offset 9 + 3) = 0 ∧
      slotVal (Planet.setposition gSwap 5 1).1.data 0 1 = 5 ∧
      slotVal (Planet.setposition gSwap 5 1).1.data 0 0 = 9 ∧
      (Planet.setposition gSwap 5 1).2 = .ok ()) :=
  ⟨by decide, by decide, by decide, by decide, by decide, by decide,
    rfl, rfl, rfl, rfl, rfl,
    setposition_swap gSwap 5 9 0 0 1 (by decide) (by decide) (by decide) (by decide)
      (by decide) (by decide) rfl rfl rfl rfl rfl⟩

/-- Concrete buffer whose star 0 slot 0 stores 360, the lowest out-of-range
planet index (not the 0xffff sentinel). -/
def gBig : GameState :=
  ⟨fun i => if i = 0x17b1d then 0x68 else if i = 0x17b1e then 1 else 0xff, 0⟩

/-- Counterexample for C4 as stated: star 0 slot 0 of gBig stores 360, which
is not the sentinel, yet planet_at does not return a planet view with that
index; the Planet constructor raises ValueError instead. -/
theorem planet_at_sentinel_counterexample :
    slotVal gBig.data 0 0 ≠ 0xffff ∧
    Star.planet_at gBig.data 0 0 = .error .valueError ∧
    Star.planet_at gBig.data 0 0 ≠ .ok (some (slotVal gBig.data 0 0)) := by
  have he : Star.planet_at gBig.data 0 0 = Except.error Err.valueError := rfl
  refine ⟨by decide, he, ?_⟩
  intro hcon
  rw [he] at hcon
  exact Except.noConfusion hcon

/-- C4 (amended): for positions 0..4, planet_at returns none exactly when the
slot stores the 0xffff sentinel; for any other stored value v it returns a
planet view with index v when v < 360, and fails with ValueError (from the
Planet constructor bound check) when v ≥ 360. -/
theorem planet_at_sentinel_law (d : Nat → Nat) (s pos : Nat) (h4 : pos ≤ 4) :
    Star.planet_at d s pos =
      (if slotVal d s pos = 0xffff then .ok none
       else if slotVal d s pos < Planet.max_planets then .ok (some (slotVal d s pos))
       else .error .valueError) := by
  unfold Star.planet_at
  rw [if_pos h4]

/-- Witness for C4 at the concrete buffer gBig and position 0. -/
theorem planet_at_sentinel_law_witness :
    (0 : Nat) ≤ 4 ∧
      Star.planet_at gBig.data 0 0 =
        (if slotVal gBig.data 0 0 = 0xffff then .ok none
         else if slotVal gBig.data 0 0 < Planet.max_planets
           then .ok (some (slotVal gBig.data 0 0))
         else .error .valueError) :=
  ⟨by decide, planet_at_sentinel_law gBig.data 0 0 (by decide)⟩

/- Branch characterizations of Star.make_planet. -/

theorem make_planet_eq_of_planet_at_error (g : GameState) (s pos btype : Nat) (e : Err)
    (hpa : Star.planet_at g.data s pos = .error e) :
    Star.make_planet g s pos btype = (g, .error e) := by
  unfold Star.make_planet
  split
  next e2 heq =>
    rw [hpa] at heq
    simp only [Except.error.injEq] at heq
    rw [heq]
  next x heq =>
    simp [hpa] at heq
  next heq =>
    simp [hpa] at heq

theorem make_planet_eq_of_occupied (g : GameState) (s pos btype o : Nat)
    (hpa : Star.planet_at g.data s pos = .ok (some o)) :
    Star.make_planet g s pos btype = (g, .error .valueError) := by
  unfold Star.make_planet
  split
  next e2 heq =>
    simp [hpa] at heq
  next x heq => rfl
  next heq =>
    simp [hpa] at heq

theorem make_planet_eq_of_bad_btype (g : GameState) (s pos btype : Nat)
    (hpa : Star.planet_at g.data s pos = .ok none) (hbt : ¬(1 ≤ btype ∧ btype ≤ 3)) :
    Star.make_planet g s pos btype = (g, .error .valueError) := by
  unfold Star.make_planet
  split
  next e2 heq =>
    simp [hpa] at heq
  next x heq =>
    simp [hpa] at heq
  next heq =>
    rw [if_neg hbt]

theorem make_planet_eq_of_overflow (g : GameState) (s pos btype : Nat)
    (hpa : Star.planet_at g.data s pos = .ok none) (hbt : 1 ≤ btype ∧ btype ≤ 3)
    (hmp : ¬ g.maxplanet + 1 < Planet.max_planets) :
    Star.make_planet g s pos btype = (⟨g.data, g.maxplanet + 1⟩, .error .valueError) := by
  unfold Star.make_planet
  split
  next e2 heq =>
    simp [hpa] at heq
  next x heq =>
    simp [hpa] at heq
  next heq =>
    rw [if_pos hbt, if_neg hmp]

theorem make_planet_eq_of_success (g : GameState) (s pos btype : Nat)
    (hpa : Star.planet_at g.data s pos = .ok none) (hbt : 1 ≤ btype ∧ btype ≤ 3)
    (hmp : g.maxplanet + 1 < Planet.max_planets) :
    Star.make_planet g s pos btype =
      (⟨set_short_at_offset
        (writeBytes g.data (Planet.offset (g.maxplanet + 1)) (Star.newPlanetData s pos btype))
        (starSlotAddr s pos) (g.maxplanet + 1), g.maxplanet + 1⟩,
       .ok (g.maxplanet + 1)) := by
  unfold Star.make_planet
  split
  next e2 heq =>
    simp [hpa] at heq
  next x heq =>
    simp [hpa] at heq
  next heq =>
    rw [if_pos hbt, if_pos hmp]

/-- All-0xff buffer whose maxplanet counter already stands at 359, the
largest valid planet index. -/
def gFull : GameState := ⟨fun _ => 0xff, 359⟩

/-- Counterexample for C5 as stated: on gFull, make_planet at the empty
position 0 of star 0 fails (the Planet constructor rejects index 360), yet
the maxplanet counter has changed from 359 to 360. -/
theorem make_planet_failure_counterexample :
    isError (Star.make_planet gFull 0 0 3).2 = true ∧
    (Star.make_planet gFull 0 0 3).1.maxplanet ≠ gFull.maxplanet := by
  have hpa : Star.planet_at gFull.data 0 0 = .ok none := rfl
  have hstate := make_planet_eq_of_overflow gFull 0 0 3 hpa (by decide) (by decide)
  rw [hstate]
  exact ⟨rfl, by decide⟩

/-- C5 (amended): make_planet validates position occupancy and body type
before any state change, and on every failure path the buffer bytes are
unchanged; the maxplanet counter is also unchanged except on the one failure
path where the incremented counter reaches Planet.max_planets (the Planet
constructor raises only after the increment), in which case the counter
keeps the incremented value. -/
theorem make_planet_failure_atomic (g : GameState) (s pos btype : Nat)
    (h : isError (Star.make_planet g s pos btype).2 = true) :
    (Star.make_planet g s pos btype).1.data = g.data ∧
    ((Star.make_planet g s pos btype).1.maxplanet = g.maxplanet ∨
      ((Star.make_planet g s pos btype).1.maxplanet = g.maxplanet + 1 ∧
        Planet.max_planets ≤ g.maxplanet + 1)) := by
  cases hpa : Star.planet_at g.data s pos with
  | error e =>
    rw [make_planet_eq_of_planet_at_error g s pos btype e hpa]
    exact ⟨rfl, Or.inl rfl⟩
  | ok o =>
    cases o with
    | some x =>
      rw [make_planet_eq_of_occupied g s pos btype x hpa]
      exact ⟨rfl, Or.inl rfl⟩
    | none =>
      by_cases hbt : 1 ≤ btype ∧ btype ≤ 3
      case neg =>
        rw [make_planet_eq_of_bad_btype g s pos btype hpa hbt]
        exact ⟨rfl, Or.inl rfl⟩
      by_cases hmp : g.maxplanet + 1 < Planet.max_planets
      case pos =>
        rw [make_planet_eq_of_success g s pos btype hpa hbt hmp] at h
        simp [isError] at h
      case neg =>
        rw [make_planet_eq_of_overflow g s pos btype hpa hbt hmp]
        exact ⟨rfl, Or.inr ⟨rfl, by omega⟩⟩

/-- Witness for C5: a failing make_planet call (occupied position) on the
concrete two-planet buffer leaves buffer and counter unchanged. -/
theorem make_planet_failure_atomic_witness :
    isError (Star.make_planet gSwap 0 0 3).2 = true ∧
      ((Star.make_planet gSwap 0 0 3).1.data = gSwap.data ∧
        ((Star.make_planet gSwap 0 0 3).1.maxplanet = gSwap.maxplanet ∨
          ((Star.make_planet gSwap 0 0 3).1.maxplanet = gSwap.maxplanet + 1 ∧
            Planet.max_planets ≤ gSwap.maxplanet + 1))) :=
  ⟨by rfl, make_planet_failure_atomic gSwap 0 0 3 (by rfl)⟩

/-- C6 evidence: the underlying _settype function behaves as the claim says
(stores codes 1..3 into byte 4, rejects others with ValueError leaving the
state unchanged), but the `type` property binding that survives the class
body has no setter slot, so the claimed assignment path raises
AttributeError for every value, valid codes included. -/
theorem settype_shadowed :
    Planet.type_property_fset = none ∧
    (Planet.settype gSwap 5 2).2 = .ok () ∧
    (Planet.settype gSwap 5 2).1.data (Planet.offset 5 + 4) = 2 ∧
    (Planet.settype gSwap 5 5).2 = .error .valueError ∧
    (Planet.settype gSwap 5 5).1 = gSwap :=
  ⟨rfl, rfl, rfl, rfl, rfl⟩

/-- Counterexample for C7 as stated: after a successful make_planet, the
terraform byte (sub-offset 8) holds the constant 2, which differs from the
value the size lookup table yields for the written size byte (7); the byte
derived from size via the table is the auxiliary byte at sub-offset 0xd. -/
theorem make_planet_terraform_counterexample :
    (Star.make_planet gEmpty 0 0 3).2 = .ok 1 ∧
    (Star.make_planet gEmpty 0 0 3).1.data (Planet.offset 1 + 8) = 2 ∧
    Planet.size2blockd.getD ((Star.make_planet gEmpty 0 0 3).1.data (Planet.offset 1 + 5)) 0 = 7 ∧
    (Star.make_planet gEmpty 0 0 3).1.data (Planet.offset 1 + 8) ≠
      Planet.size2blockd.getD ((Star.make_planet gEmpty 0 0 3).1.data (Planet.offset 1 + 5)) 0 :=
  ⟨rfl, rfl, rfl, by decide⟩

/-- C7 (amended): the default record written by a successful make_planet has
colony short 0xffff, star byte s, position byte pos, body type byte btype,
size 3 (large), gravity 1 (medium), richness 2 (abundant), scenery equal to
the deterministic pseudo-random draw from seed pos + btype*5 + s*15 with
value below 3, terraform byte equal to the constant 2 (barren), auxiliary
byte 0xd equal to size2blockd applied to the written size byte, and the
star slot entry at pos set to the new index. -/
theorem make_planet_default_record (g : GameState) (s pos btype n : Nat)
    (h : (Star.make_planet g s pos btype).2 = .ok n) :
    short_at_offset (Star.make_planet g s pos btype).1.data (Planet.offset n) = 0xffff ∧
    (Star.make_planet g s pos btype).1.data (Planet.offset n + 2) = s ∧
    (Star.make_planet g s pos btype).1.data (Planet.offset n + 3) = pos ∧
    (Star.make_planet g s pos btype).1.data (Planet.offset n + 4) = btype ∧
    (Star.make_planet g s pos btype).1.data (Planet.offset n + 5) = 3 ∧
    (Star.make_planet g s pos btype).1.data (Planet.offset n + 6) = 1 ∧
    (Star.make_planet g s pos btype).1.data (Planet.offset n + 8) = 2 ∧
    (Star.make_planet g s pos btype).1.data (Planet.offset n + 9) =
      randrange3 (pos + btype * 5 + s * 15) ∧
    (Star.make_planet g s pos btype).1.data (Planet.offset n + 9) < 3 ∧
    (Star.make_planet g s pos btype).1.data (Planet.offset n + 0xa) = 2 ∧
    (Star.make_planet g s pos btype).1.data (Planet.offset n + 0xd) =
      Planet.size2blockd.getD ((Star.make_planet g s pos btype).1.data (Planet.offset n + 5)) 0 ∧
    slotVal (Star.make_planet g s pos btype).1.data s pos = n := by
  obtain ⟨hpa, hbt, hmp, hn⟩ := make_planet_success_inv g s pos btype n h
  rw [make_planet_success_state g s pos btype hpa hbt hmp, hn]
  dsimp only
  have hge := starSlotAddr_ge s pos
  have hbyte : ∀ i, i < Planet.block_size →
      set_short_at_offset
        (writeBytes g.data (Planet.offset (g.maxplanet + 1)) (Star.newPlanetData s pos btype))
        (starSlotAddr s pos) (g.maxplanet + 1) (Planet.offset (g.maxplanet + 1) + i) =
      (Star.newPlanetData s pos btype).getD i 0 := by
    intro i hi
    have hlow : Planet.offset (g.maxplanet + 1) + i < Star.block_offset :=
      planet_addr_lt_star_block _ i hmp hi
    rw [set_short_ne _ _ _ _ (by omega) (by omega),
      writeBytes_getD _ _ _ _ (by omega)
        (by rw [newPlanetData_length]; omega),
      Nat.add_sub_cancel_left]
  have hbyte0 : set_short_at_offset
      (writeBytes g.data (Planet.offset (g.maxplanet + 1)) (Star.newPlanetData s pos btype))
      (starSlotAddr s pos) (g.maxplanet + 1) (Planet.offset (g.maxplanet + 1)) = 0xff := by
    have hx := hbyte 0 (by decide)
    rw [Nat.add_zero] at hx
    exact hx
  refine ⟨?_, ?_, ?_, ?_, ?_, ?_, ?_, ?_, ?_, ?_, ?_, ?_⟩
  · unfold short_at_offset
    have hG1 : (Star.newPlanetData s pos btype).getD 1 0 = 0xff := rfl
    rw [hbyte0, hbyte 1 (by decide), hG1]
  · rw [hbyte 2 (by decide)]
    rfl
  · rw [hbyte 3 (by decide)]
    rfl
  · rw [hbyte 4 (by decide)]
    rfl
  · rw [hbyte 5 (by decide)]
    rfl
  · rw [hbyte 6 (by decide)]
    rfl
  · rw [hbyte 8 (by decide)]
    rfl
  · rw [hbyte 9 (by decide)]
    rfl
  · rw [hbyte 9 (by decide)]
    show randrange3 (pos + btype * 5 + s * 15) < 3
    unfold randrange3
    omega
  · rw [hbyte 0xa (by decide)]
    rfl
  · rw [hbyte 0xd (by decide), hbyte 5 (by decide)]
    rfl
  · rw [slotVal_set_short_same]

/-- Witness for C7: the default record of the planet created on the empty
buffer at position 0 of star 0 with body type 3. -/
theorem make_planet_default_record_witness :
    (Star.make_planet gEmpty 0 0 3).2 = .ok 1 ∧
      (short_at_offset (Star.make_planet gEmpty 0 0 3).1.data (Planet.offset 1) = 0xffff ∧
       (Star.make_planet gEmpty 0 0 3).1.data (Planet.offset 1 + 2) = 0 ∧
       (Star.make_planet gEmpty 0 0 3).1.data (Planet.offset 1 + 3) = 0 ∧
       (Star.make_planet gEmpty 0 0 3).1.data (Planet.offset 1 + 4) = 3 ∧
       (Star.make_planet gEmpty 0 0 3).1.data (Planet.offset 1 + 5) = 3 ∧
       (Star.make_planet gEmpty 0 0 3).1.data (Planet.offset 1 + 6) = 1 ∧
       (Star.make_planet gEmpty 0 0 3).1.data (Planet.offset 1 + 8) = 2 ∧
       (Star.make_planet gEmpty 0 0 3).1.data (Planet.offset 1 + 9) =
         randrange3 (0 + 3 * 5 + 0 * 15) ∧
       (Star.make_planet gEmpty 0 0 3).1.data (Planet.offset 1 + 9) < 3 ∧
       (Star.make_planet gEmpty 0 0 3).1.data (Planet.offset 1 + 0xa) = 2 ∧
       (Star.make_planet gEmpty 0 0 3).1.data (Planet.offset 1 + 0xd) =
         Planet.size2blockd.getD ((Star.make_planet gEmpty 0 0 3).1.data (Planet.offset 1 + 5)) 0 ∧
       slotVal (Star.make_planet gEmpty 0 0 3).1.data 0 0 = 1) :=
  ⟨by rfl, make_planet_default_record gEmpty 0 0 3 1 (by rfl)⟩

/- Folded maximum over a list, as computed by Game.__init__. -/

theorem foldl_max_init_le (l : List Nat) (n : Nat) : n ≤ l.foldl max n := by
  induction l generalizing n with
  | nil => exact Nat.le_refl n
  | cons a t ih =>
    simp only [List.foldl_cons]
    exact Nat.le_trans (Nat.le_max_left n a) (ih (max n a))

theorem foldl_max_of_mem (l : List Nat) (n x : Nat) : x ∈ l → x ≤ l.foldl max n := by
  induction l generalizing n with
  | nil =>
    intro hx
    cases hx
  | cons a t ih =>
    intro hx
    simp only [List.foldl_cons]
    rcases List.mem_cons.mp hx with h | h
    · rw [h]
      exact Nat.le_trans (Nat.le_max_right n a) (foldl_max_init_le t (max n a))
    · exact ih (max n a) h

theorem foldl_max_le_of_mem_cons (l : List Nat) (n x : Nat) (hx : x ∈ n :: l) :
    x ≤ l.foldl max n := by
  rcases List.mem_cons.mp hx with h | h
  · rw [h]
    exact foldl_max_init_le l n
  · exact foldl_max_of_mem l n x h

theorem foldl_max_mem (l : List Nat) (n : Nat) : l.foldl max n ∈ n :: l := by
  induction l generalizing n with
  | nil => exact List.mem_singleton.mpr rfl
  | cons a t ih =>
    simp only [List.foldl_cons]
    have hx := ih (max n a)
    rcases List.mem_cons.mp hx with h | h
    · rcases max_choice n a with hm | hm
      · exact List.mem_cons.mpr (Or.inl (h.trans hm))
      · exact List.mem_cons.mpr (Or.inr (List.mem_cons.mpr (Or.inl (h.trans hm))))
    · exact List.mem_cons.mpr (Or.inr (List.mem_cons.mpr (Or.inr h)))

/-- Some slot of a star in the scanned star prefix stores m. -/
def ReferencedInPrefix (d : Nat → Nat) (m : Nat) : Prop :=
  ∃ s ∈ Game.starsList d, ∃ q, q < 5 ∧ slotVal d s q = m

/-- m bounds every non-sentinel slot entry of the scanned star prefix. -/
def BoundsPrefix (d : Nat → Nat) (m : Nat) : Prop :=
  ∀ s ∈ Game.starsList d, ∀ q, q < 5 → slotVal d s q ≠ 0xffff → slotVal d s q ≤ m

theorem mem_planetNums (d : Nat → Nat) (s x : Nat) :
    x ∈ Star.planetNums d s ↔ (∃ q, q < 5 ∧ slotVal d s q = x) ∧ x ≠ 0xffff := by
  unfold Star.planetNums
  rw [List.mem_filter]
  simp only [List.mem_map, List.mem_range, bne_iff_ne, ne_eq]

theorem mem_flat_planetNums (d : Nat → Nat) (x : Nat) :
    x ∈ ((Game.starsList d).map (fun s => Star.planetNums d s)).flatten ↔
      ∃ s ∈ Game.starsList d, x ∈ Star.planetNums d s := by
  rw [List.mem_flatten]
  constructor
  · rintro ⟨l, hl, hx⟩
    obtain ⟨s, hs, rfl⟩ := List.mem_map.mp hl
    exact ⟨s, hs, hx⟩
  · rintro ⟨s, hs, hx⟩
    exact ⟨Star.planetNums d s, List.mem_map.mpr ⟨s, hs, rfl⟩, hx⟩

/-- C8 (amended): when Game construction succeeds, the computed maxplanet is
the maximum planet index referenced by the slot tables of the contiguous
prefix of existing stars; the scan stops at the first non-existing star, so
stars beyond a gap are not consulted. -/
theorem init_maxplanet_spec (d : Nat → Nat) (m : Nat)
    (h : Game.init_maxplanet d = .ok m) :
    ReferencedInPrefix d m ∧ BoundsPrefix d m := by
  unfold Game.init_maxplanet at h
  split_ifs at h with hvalid
  split at h
  next heq => simp at h
  next n l heq =>
    simp only [Except.ok.injEq] at h
    constructor
    · have hmem : m ∈ n :: l := h ▸ foldl_max_mem l n
      rw [← heq] at hmem
      obtain ⟨s, hs, hx⟩ := (mem_flat_planetNums d m).mp hmem
      obtain ⟨⟨q, hq, hsl⟩, -⟩ := (mem_planetNums d s m).mp hx
      exact ⟨s, hs, q, hq, hsl⟩
    · intro s hs q hq hne
      have hmem : slotVal d s q ∈ Star.planetNums d s :=
        (mem_planetNums d s _).mpr ⟨⟨q, hq, rfl⟩, hne⟩
      have hflat : slotVal d s q ∈
          ((Game.starsList d).map (fun s => Star.planetNums d s)).flatten :=
        (mem_flat_planetNums d _).mpr ⟨s, hs, hmem⟩
      rw [heq] at hflat
      exact h ▸ foldl_max_le_of_mem_cons l n _ hflat

/-- Concrete gapped buffer: star 0 exists and references planet 3 at slot 0,
star 1 does not exist, star 2 exists and references planet 7 at slot 0. -/
def gGapData : Nat → Nat := fun i =>
  if i = 0x17b44 then 0
  else if i = 0x17b1d then 3 else if i = 0x17b1e then 0
  else if i = 0x17bff then 7 else if i = 0x17c00 then 0
  else 0xff

/-- Counterexample for C8 as stated: loading the gapped buffer computes
maxplanet 3, although the slot table of the existing star 2 references
planet index 7 > 3; the scan never reaches star 2 because star 1 does not
exist. -/
theorem init_maxplanet_counterexample :
    Game.init_maxplanet gGapData = .ok 3 ∧
    Star.star_exists gGapData 2 = true ∧
    slotVal gGapData 2 0 = 7 ∧ ¬ (7 : Nat) ≤ 3 := by
  refine ⟨by rfl, by rfl, by rfl, by decide⟩

/-- Witness for C8: on the gapped buffer the construction succeeds with
maxplanet 3, which is referenced in the scanned prefix and bounds it. -/
theorem init_maxplanet_spec_witness :
    Game.init_maxplanet gGapData = .ok 3 ∧
      (ReferencedInPrefix gGapData 3 ∧ BoundsPrefix gGapData 3) :=
  ⟨by rfl, init_maxplanet_spec gGapData 3 (by rfl)⟩

/-- C9: the size setter writes the new size into byte 5, and rewrites the
auxiliary byte 0xd to size2blockd[new size] exactly when the stored old
size has a table entry (old size < 5) that equals the current auxiliary
byte; otherwise the auxiliary byte is unchanged. (When the stored old size
is 5 or more the Python table access raises IndexError after the size byte
was written, with the auxiliary byte untouched.) -/
theorem setsize_spec (g : GameState) (p v : Nat) (hv : v ≤ 4) :
    (Planet.setsize g p v).1.data (Planet.offset p + 5) = v ∧
    (Planet.setsize g p v).1.data (Planet.offset p + 0xd) =
      (if g.data (Planet.offset p + 5) < Planet.size2blockd.length ∧
          g.data (Planet.offset p + 0xd) =
            Planet.size2blockd.getD (g.data (Planet.offset p + 5)) 0
        then Planet.size2blockd.getD v 0
        else g.data (Planet.offset p + 0xd)) := by
  have hi5 : (5 : Nat) < Planet.block_size := by decide
  have hid : (0xd : Nat) < Planet.block_size := by decide
  have hd1 : (upd g.data (Planet.offset p + 5) v) (Planet.offset p + 0xd) =
      g.data (Planet.offset p + 0xd) :=
    upd_ne _ _ _ _ (planet_off_ne p p 0xd 5 hid hi5 (Or.inr (by omega)))
  unfold Planet.setsize
  rw [if_neg (by omega : ¬ v > 4)]
  dsimp only
  by_cases h5 : g.data (Planet.offset p + 5) < Planet.size2blockd.length
  · rw [if_pos h5]
    by_cases haux : (upd g.data (Planet.offset p + 5) v) (Planet.offset p + 0xd) =
        Planet.size2blockd.getD (g.data (Planet.offset p + 5)) 0
    · rw [if_pos haux]
      dsimp only
      constructor
      · rw [upd_ne _ _ _ _ (planet_off_ne p p 5 0xd hi5 hid (Or.inr (by omega)))]
        exact upd_same _ _ _
      · rw [if_pos ⟨h5, by rw [← hd1]; exact haux⟩]
        exact upd_same _ _ _
    · rw [if_neg haux]
      dsimp only
      refine ⟨upd_same _ _ _, ?_⟩
      rw [if_neg (fun hcon => haux (by rw [hd1]; exact hcon.2))]
      exact hd1
  · rw [if_neg h5]
    dsimp only
    refine ⟨upd_same _ _ _, ?_⟩
    rw [if_neg (fun hcon => h5 hcon.1)]
    exact hd1

/-- Concrete buffer: planet 0 stores size 2 (medium) and auxiliary byte 5,
the typical value for size 2. -/
def gC9 : GameState :=
  ⟨fun i => if i = 0x162ee then 2 else if i = 0x162f6 then 5 else 0xff, 0⟩

/-- Witness for C9: setting size 4 on the correlated planet 0 of gC9 also
rewrites the auxiliary byte to 10, the typical value for size 4. -/
theorem setsize_spec_witness :
    (4 : Nat) ≤ 4 ∧
      ((Planet.setsize gC9 0 4).1.data (Planet.offset 0 + 5) = 4 ∧
        (Planet.setsize gC9 0 4).1.data (Planet.offset 0 + 0xd) =
          (if gC9.data (Planet.offset 0 + 5) < Planet.size2blockd.length ∧
              gC9.data (Planet.offset 0 + 0xd) =
                Planet.size2blockd.getD (gC9.data (Planet.offset 0 + 5)) 0
            then Planet.size2blockd.getD 4 0
            else gC9.data (Planet.offset 0 + 0xd))) :=
  ⟨by decide, setsize_spec gC9 0 4 (by decide)⟩

/-- C10: setting a valid terraform code c on a planet whose stored terraform
code is valid adjusts the food byte by the signed difference of the typical
food values and stores c, unless the adjusted food leaves 0..255, in which
case the call fails with ValueError and the state is completely unchanged. -/
theorem setterraform_spec (g : GameState) (p c : Nat) (hc : c ≤ 9)
    (hcur : g.data (Planet.offset p + 8) ≤ 9) :
    (Planet.setterraform g p c).1.data (Planet.offset p + 11) =
      (if 0 ≤ (g.data (Planet.offset p + 11) : Int)
            + Planet.terraform2food.getD c 0
            - Planet.terraform2food.getD (g.data (Planet.offset p + 8)) 0 ∧
          (g.data (Planet.offset p + 11) : Int)
            + Planet.terraform2food.getD c 0
            - Planet.terraform2food.getD (g.data (Planet.offset p + 8)) 0 ≤ 255
        then ((g.data (Planet.offset p + 11) : Int)
            + Planet.terraform2food.getD c 0
            - Planet.terraform2food.getD (g.data (Planet.offset p + 8)) 0).toNat
        else g.data (Planet.offset p + 11)) ∧
    (Planet.setterraform g p c).1.data (Planet.offset p + 8) =
      (if 0 ≤ (g.data (Planet.offset p + 11) : Int)
            + Planet.terraform2food.getD c 0
            - Planet.terraform2food.getD (g.data (Planet.offset p + 8)) 0 ∧
          (g.data (Planet.offset p + 11) : Int)
            + Planet.terraform2food.getD c 0
            - Planet.terraform2food.getD (g.data (Planet.offset p + 8)) 0 ≤ 255
        then c
        else g.data (Planet.offset p + 8)) ∧
    (Planet.setterraform g p c).2 =
      (if 0 ≤ (g.data (Planet.offset p + 11) : Int)
            + Planet.terraform2food.getD c 0
            - Planet.terraform2food.getD (g.data (Planet.offset p + 8)) 0 ∧
          (g.data (Planet.offset p + 11) : Int)
            + Planet.terraform2food.getD c 0
            - Planet.terraform2food.getD (g.data (Planet.offset p + 8)) 0 ≤ 255
        then .ok ()
        else .error .valueError) := by
  have hi11 : (11 : Nat) < Planet.block_size := by decide
  have hi8 : (8 : Nat) < Planet.block_size := by decide
  have hlen1 : Planet.terraform2desc.length = 10 := rfl
  have hlen2 : Planet.terraform2food.length = 10 := rfl
  unfold Planet.setterraform
  rw [if_pos (by rw [hlen1]; omega), if_pos (by rw [hlen2]; omega)]
  unfold Planet.setfood
  by_cases hok : (g.data (Planet.offset p + 11) : Int)
      + Planet.terraform2food.getD c 0
      - Planet.terraform2food.getD (g.data (Planet.offset p + 8)) 0 < 0 ∨
      (g.data (Planet.offset p + 11) : Int)
      + Planet.terraform2food.getD c 0
      - Planet.terraform2food.getD (g.data (Planet.offset p + 8)) 0 > 255
  · rw [if_pos hok]
    dsimp only
    rw [if_neg (by omega), if_neg (by omega), if_neg (by omega)]
    exact ⟨rfl, rfl, rfl⟩
  · rw [if_neg hok]
    dsimp only
    rw [if_pos (by omega), if_pos (by omega), if_pos (by omega)]
    refine ⟨?_, upd_same _ _ _, rfl⟩
    rw [upd_ne _ _ _ _ (planet_off_ne p p 11 8 hi11 hi8 (Or.inr (by omega)))]
    exact upd_same _ _ _

/-- Concrete buffer: planet 0 stores terraform 8 (terran, typical food 2)
and food 0, so lowering terraform to 0 (toxic, typical food 0) would push
food to -2. -/
def gC10 : GameState :=
  ⟨fun i => if i = 0x162f1 then 8 else if i = 0x162f4 then 0 else 0xff, 0⟩

/-- Witness for C10: setting terraform 0 on planet 0 of gC10 fails and
leaves both bytes unchanged. -/
theorem setterraform_spec_witness :
    (0 : Nat) ≤ 9 ∧ gC10.data (Planet.offset 0 + 8) ≤ 9 ∧
      ((Planet.setterraform gC10 0 0).1.data (Planet.offset 0 + 11) =
        (if 0 ≤ (gC10.data (Planet.offset 0 + 11) : Int)
              + Planet.terraform2food.getD 0 0
              - Planet.terraform2food.getD (gC10.data (Planet.offset 0 + 8)) 0 ∧
            (gC10.data (Planet.offset 0 + 11) : Int)
              + Planet.terraform2food.getD 0 0
              - Planet.terraform2food.getD (gC10.data (Planet.offset 0 + 8)) 0 ≤ 255
          then ((gC10.data (Planet.offset 0 + 11) : Int)
              + Planet.terraform2food.getD 0 0
              - Planet.terraform2food.getD (gC10.data (Planet.offset 0 + 8)) 0).toNat
          else gC10.data (Planet.offset 0 + 11)) ∧
      (Planet.setterraform gC10 0 0).1.data (Planet.offset 0 + 8) =
        (if 0 ≤ (gC10.data (Planet.offset 0 + 11) : Int)
              + Planet.terraform2food.getD 0 0
              - Planet.terraform2food.getD (gC10.data (Planet.offset 0 + 8)) 0 ∧
            (gC10.data (Planet.offset 0 + 11) : Int)
              + Planet.terraform2food.getD 0 0
              - Planet.terraform2food.getD (gC10.data (Planet.offset 0 + 8)) 0 ≤ 255
          then 0
          else gC10.data (Planet.offset 0 + 8)) ∧
      (Planet.setterraform gC10 0 0).2 =
        (if 0 ≤ (gC10.data (Planet.offset 0 + 11) : Int)
              + Planet.terraform2food.getD 0 0
              - Planet.terraform2food.getD (gC10.data (Planet.offset 0 + 8)) 0 ∧
            (gC10.data (Planet.offset 0 + 11) : Int)
              + Planet.terraform2food.getD 0 0
              - Planet.terraform2food.getD (gC10.data (Planet.offset 0 + 8)) 0 ≤ 255
          then .ok ()
          else .error .valueError)) :=
  ⟨by decide, by decide, setterraform_spec gC10 0 0 (by decide) (by decide)⟩
